import Mathlib

/-!
Verification of the Zephyr Scale MCP server (`src/app.py`) against its
natural-language specification.

The development shallowly embeds the Python source:

* JSON values (`dict`/`list`/`str`/`int`/`bool`/`None` as decoded from the
  Zephyr Scale API, or built as request payloads) are the inductive `JsonVal`.
  Python dicts are insertion-ordered association lists; the code only ever
  inserts fresh keys, so first-match lookup agrees with Python dict lookup.
* Python operations that can raise (`.get` on a non-dict, subscripting,
  `in` on a non-container, iteration of a non-iterable) return
  `Except PyErr _`; an `Except.error` models an uncaught Python exception.
* The HTTP transport (`httpx`) is a parameter `transport : Request →
  TransportResult`; a `Request` records exactly what `make_zephyr_request`
  hands to `httpx` (method, url, headers, json body, query params, timeout).
  An `HttpResponse` carries the status, the decoded body text, and the
  outcome of `response.json()` (`Except.error msg` models a decode failure
  raising an exception whose `str` is `msg`).
* Each embedded tool returns the shaped string result (or the uncaught
  Python exception) together with the list of requests actually handed to
  the transport, so "no network call happened" is `calls = []`.
* `json.loads` of a raw-payload string argument is modelled by its outcome:
  the tools take `Option JsonVal` where `none` models a
  `json.JSONDecodeError` on the given string.

Logging calls in the source are side effects with no bearing on any claim
and are not modelled.
-/

/-- A JSON value, as produced by `response.json()` or built as a payload.
Numbers are modelled as `Int` (every number the code itself constructs is an
int). Objects are insertion-ordered key/value lists, like Python dicts. -/
inductive JsonVal where
  | null
  | bool (b : Bool)
  | num (n : Int)
  | str (s : String)
  | arr (xs : List JsonVal)
  | obj (fields : List (String × JsonVal))

/-- Uncaught Python exceptions the embedded code can raise. -/
inductive PyErr where
  | attributeError
  | typeError
  | keyError (k : String)
deriving DecidableEq

/-- First-match lookup in an association list; since the source only inserts
fresh keys into its dicts, this agrees with Python dict lookup. -/
def dictLookup : List (String × JsonVal) → String → Option JsonVal
  | [], _ => none
  | (k, v) :: rest, key => if k = key then some v else dictLookup rest key

/-- Python truthiness (`bool(x)`) of a JSON value. -/
def pyTruthy : JsonVal → Bool
  | .null => false
  | .bool b => b
  | .num n => !(n == 0)
  | .str s => !(s == "")
  | .arr xs => !xs.isEmpty
  | .obj fs => !fs.isEmpty

/-- Python `v.get(k, d)`: a dict lookup with default; `.get` on anything that
is not a dict raises `AttributeError`. -/
def pyGetD (v : JsonVal) (k : String) (d : JsonVal) : Except PyErr JsonVal :=
  match v with
  | .obj fs => .ok ((dictLookup fs k).getD d)
  | _ => .error .attributeError

/-- Python `v.get(k)` (default `None`). -/
def pyGet (v : JsonVal) (k : String) : Except PyErr JsonVal :=
  pyGetD v k .null

/-- Python `v[k]` for a string key: `KeyError` when absent, `TypeError` when
`v` is not a dict (string subscripts are invalid for lists etc.). -/
def pySubscript (v : JsonVal) (k : String) : Except PyErr JsonVal :=
  match v with
  | .obj fs =>
      match dictLookup fs k with
      | some x => .ok x
      | none => .error (.keyError k)
  | _ => .error .typeError

/-- Is `needle` a contiguous infix of `hay`? (used for Python `in` on str). -/
def listInfix (needle : List Char) : List Char → Bool
  | [] => needle.isEmpty
  | c :: rest => needle.isPrefixOf (c :: rest) || listInfix needle rest

/-- Python `k in v`: key membership for dicts, element membership for lists
(a string equals an element iff that element is the same string), substring
test for strings, `TypeError` otherwise. -/
def pyContains (v : JsonVal) (k : String) : Except PyErr Bool :=
  match v with
  | .obj fs => .ok (dictLookup fs k).isSome
  | .arr xs => .ok (xs.any fun e => match e with | .str s => s == k | _ => false)
  | .str s => .ok (listInfix k.toList s.toList)
  | _ => .error .typeError

/-- Python iteration `for x in v`: lists yield elements, strings yield their
characters, dicts yield their keys; other values raise `TypeError`. -/
def pyIter : JsonVal → Except PyErr (List JsonVal)
  | .arr xs => .ok xs
  | .str s => .ok (s.toList.map fun c => .str (String.singleton c))
  | .obj fs => .ok (fs.map fun kv => .str kv.1)
  | _ => .error .typeError

mutual

/-- Python `repr` of a JSON value (string escaping inside `repr` is elided:
no claim evaluates `repr` on a string containing quotes or backslashes). -/
def pyRepr : JsonVal → String
  | .null => "None"
  | .bool true => "True"
  | .bool false => "False"
  | .num n => toString n
  | .str s => "'" ++ s ++ "'"
  | .arr xs => "[" ++ pyReprItems xs ++ "]"
  | .obj fs => "\x7b" ++ pyReprFields fs ++ "\x7d"
termination_by v => sizeOf v

def pyReprItems : List JsonVal → String
  | [] => ""
  | [x] => pyRepr x
  | x :: y :: ys => pyRepr x ++ ", " ++ pyReprItems (y :: ys)
termination_by xs => sizeOf xs

def pyReprFields : List (String × JsonVal) → String
  | [] => ""
  | [(k, v)] => "'" ++ k ++ "': " ++ pyRepr v
  | (k, v) :: g :: gs => "'" ++ k ++ "': " ++ pyRepr v ++ ", " ++ pyReprFields (g :: gs)
termination_by fs => sizeOf fs

end

/-- Python `str(v)` as used in f-strings: a string is rendered verbatim, any
other value via its `repr`. -/
def pyStr : JsonVal → String
  | .str s => s
  | v => pyRepr v

def nspaces (n : Nat) : String := String.mk (List.replicate n ' ')

/-- JSON string literal as emitted by `json.dumps` (escaping of quotes and
backslashes; control-character and non-ASCII escapes are elided: no claim
evaluates `dumps` on such strings). -/
def jsonQuote (s : String) : String :=
  "\"" ++ String.join (s.toList.map fun c =>
    if c = '"' then "\\\"" else if c = '\\' then "\\\\" else String.singleton c) ++ "\""

mutual

/-- Python `json.dumps(v, indent=2)` at nesting level `lvl` (default
separators: `", "` collapses to `",\n"` under indent, and `": "`). -/
def jsonDumps (lvl : Nat) : JsonVal → String
  | .null => "null"
  | .bool true => "true"
  | .bool false => "false"
  | .num n => toString n
  | .str s => jsonQuote s
  | .arr xs =>
      if xs.isEmpty then "[]"
      else "[\n" ++ dumpsItems (lvl + 1) xs ++ "\n" ++ nspaces (2 * lvl) ++ "]"
  | .obj fs =>
      if fs.isEmpty then "\x7b\x7d"
      else "\x7b\n" ++ dumpsFields (lvl + 1) fs ++ "\n" ++ nspaces (2 * lvl) ++ "\x7d"
termination_by v => sizeOf v

def dumpsItems (lvl : Nat) : List JsonVal → String
  | [] => ""
  | [x] => nspaces (2 * lvl) ++ jsonDumps lvl x
  | x :: y :: ys => nspaces (2 * lvl) ++ jsonDumps lvl x ++ ",\n" ++ dumpsItems lvl (y :: ys)
termination_by xs => sizeOf xs

def dumpsFields (lvl : Nat) : List (String × JsonVal) → String
  | [] => ""
  | [(k, v)] => nspaces (2 * lvl) ++ jsonQuote k ++ ": " ++ jsonDumps lvl v
  | (k, v) :: g :: gs =>
      nspaces (2 * lvl) ++ jsonQuote k ++ ": " ++ jsonDumps lvl v ++ ",\n" ++ dumpsFields lvl (g :: gs)
termination_by fs => sizeOf fs

end

/-! ## The Request Executor (`make_zephyr_request`, src/app.py lines 43-83) -/

/-- One request exactly as handed to `httpx`: method (upper-cased by the
dispatch), url, headers, the `json=` body (only passed for POST/PUT), the
`params=` query mapping, and the `timeout=` value (`30.0` in the source,
modelled as the number 30). -/
structure Request where
  method : String
  url : String
  headers : List (String × String)
  body : Option JsonVal
  params : Option (List (String × JsonVal))
  timeout : Nat

/-- The response delivered by `httpx`: status code, body text (empty text
models empty `response.content`), and the outcome of `response.json()`
(`Except.error msg` models a decode exception with `str(e) = msg`). -/
structure HttpResponse where
  status : Nat
  text : String
  jsonVal : Except String JsonVal

/-- What the transport does with a request: deliver a response, or raise an
exception (connection error, timeout, ...) whose `str` is `msg`. -/
inductive TransportResult where
  | resp (r : HttpResponse)
  | exn (msg : String)

/-- A transport that answers every request with the same response. -/
def constTransport (r : HttpResponse) : Request → TransportResult :=
  fun _ => .resp r

/-- The two fixed headers attached to every call (src/app.py lines 50-53). -/
def requestHeaders (token : String) : List (String × String) :=
  [("Authorization", "Bearer " ++ token), ("Content-Type", "application/json")]

/-- Python `method.upper()` (the source only ever compares ASCII method
names; implemented over the character list so it reduces by `rfl`). -/
def methodUpper (m : String) : String :=
  String.mk (m.toList.map Char.toUpper)

/-- The four methods the dispatch in lines 57-64 accepts. -/
def supportedMethod (m : String) : Bool :=
  methodUpper m == "GET" || methodUpper m == "POST" ||
    methodUpper m == "PUT" || methodUpper m == "DELETE"

/-- The request the dispatch hands to `httpx`: every branch passes the same
headers, `params`, and `timeout=30.0`; only POST and PUT pass `json=data`. -/
def execRequest (token method url : String) (data : Option JsonVal)
    (params : Option (List (String × JsonVal))) : Request :=
  { method := methodUpper method
    url := url
    headers := requestHeaders token
    body := if methodUpper method == "POST" || methodUpper method == "PUT" then data else none
    params := params
    timeout := 30 }

/-- httpx `Response.is_success`: `raise_for_status()` raises `HTTPStatusError`
exactly when the status is outside 200-299. -/
def is2xx (status : Nat) : Bool :=
  200 ≤ status && status < 300

/-- Lines 68-79: `raise_for_status()` first (a non-2xx status is caught as
`HTTPStatusError` and becomes the error record with the exact status and raw
text); then the 204/empty-body check yields the synthetic success marker;
then `response.json()` (a decode failure is caught by the generic handler). -/
def handleResponse (r : HttpResponse) : JsonVal :=
  if !is2xx r.status then
    .obj [("error", .str ("HTTP " ++ toString r.status ++ ": " ++ r.text)),
          ("status_code", .num (Int.ofNat r.status))]
  else if r.status == 204 || r.text == "" then
    .obj [("success", .bool true)]
  else
    match r.jsonVal with
    | .ok v => v
    | .error msg => .obj [("error", .str ("Request failed: " ++ msg))]

/-- `make_zephyr_request` (src/app.py lines 43-83). Returns the dict the
function returns, together with the list of requests actually handed to the
transport. Every exception raised inside the `try` is caught (the
`ValueError` for an unsupported method, `HTTPStatusError`, and any transport
or decode exception), so the embedding is a total function: the executor
never raises past its own boundary. An unsupported method raises before the
transport is invoked, hence the empty call list on that branch. -/
def make_zephyr_request (token : String) (transport : Request → TransportResult)
    (method url : String) (data : Option JsonVal)
    (params : Option (List (String × JsonVal))) : JsonVal × List Request :=
  if supportedMethod method then
    let req := execRequest token method url data params
    match transport req with
    | .resp r => (handleResponse r, [req])
    | .exn msg => (.obj [("error", .str ("Request failed: " ++ msg))], [req])
  else
    (.obj [("error", .str ("Request failed: Unsupported HTTP method: " ++ method))], [])

/-- The startup configuration (lines 17-26): bearer token and resolved base
URL, immutable after startup. -/
structure Config where
  token : String
  api_base : String

/-! ## Endpoint tools

Each tool returns the shaped display string (or the uncaught Python
exception) together with the list of requests handed to the transport. -/

/-- Python `if x: d[k] = v` for an optional argument: appends the binding
exactly when the guard is truthy (the dicts in the source never already
contain the key, so dict insertion is an append). -/
def appendIf (p : List (String × JsonVal)) (c : Bool) (k : String) (v : JsonVal) :
    List (String × JsonVal) :=
  if c then p ++ [(k, v)] else p

/-- Truthiness of an `Optional[str]` argument (`None` and `""` are falsy). -/
def truthyOptStr : Option String → Bool
  | none => false
  | some s => !(s == "")

/-- Truthiness of an `Optional[int]` argument (`None` and `0` are falsy). -/
def truthyOptInt : Option Int → Bool
  | none => false
  | some n => !(n == 0)

/-- Truthiness of an `Optional[List[str]]` argument (`None` and `[]` falsy). -/
def truthyOptStrList : Option (List String) → Bool
  | none => false
  | some l => !l.isEmpty

/-- Query params of `get_test_cases` (lines 104-111). -/
def get_test_cases_params (project_key : String) (folder_id : Option Int)
    (max_results start_at : Int) : List (String × JsonVal) :=
  appendIf
    [("projectKey", .str project_key), ("maxResults", .num (min max_results 1000)),
     ("startAt", .num start_at)]
    (truthyOptInt folder_id) "folderId" (.num (folder_id.getD 0))

/-- The field projection of one test case (lines 126-138), in source order.
`tc.get("priority", {}).get("id")` is unguarded: a present-but-`null`
`priority` (or `status`) makes the inner `.get` raise `AttributeError`,
whereas `folder` and `owner` are guarded by a truthiness test. -/
def projectTestCase (tc : JsonVal) : Except PyErr JsonVal := do
  let idv ← pyGet tc "id"
  let keyv ← pyGet tc "key"
  let namev ← pyGet tc "name"
  let priorityBox ← pyGetD tc "priority" (.obj [])
  let priorityv ← pyGet priorityBox "id"
  let statusBox ← pyGetD tc "status" (.obj [])
  let statusv ← pyGet statusBox "id"
  let objectivev ← pyGet tc "objective"
  let preconditionv ← pyGet tc "precondition"
  let estimatedTimev ← pyGet tc "estimatedTime"
  let createdOnv ← pyGet tc "createdOn"
  let folderCond ← pyGet tc "folder"
  let folderv ←
    if pyTruthy folderCond then do
      let fbox ← pyGetD tc "folder" (.obj [])
      pyGet fbox "id"
    else
      pure .null
  let ownerCond ← pyGet tc "owner"
  let ownerv ←
    if pyTruthy ownerCond then do
      let obox ← pyGetD tc "owner" (.obj [])
      pyGet obox "accountId"
    else
      pure .null
  return .obj [("id", idv), ("key", keyv), ("name", namev), ("priority", priorityv),
    ("status", statusv), ("objective", objectivev), ("precondition", preconditionv),
    ("estimatedTime", estimatedTimev), ("createdOn", createdOnv), ("folder", folderv),
    ("owner", ownerv)]

/-- Response shaping of `get_test_cases` (lines 116-148): error check, the
`values` list (default `[]`), the "No test cases found." early return, the
per-test-case projection, and the dumped result with verbatim pagination. -/
def get_test_cases_shape (data : JsonVal) : Except PyErr String := do
  if (← pyContains data "error") then
    let ev ← pySubscript data "error"
    return "Error: " ++ pyStr ev
  let test_cases ← pyGetD data "values" (.arr [])
  if !pyTruthy test_cases then
    return "No test cases found."
  let items ← pyIter test_cases
  let result ← items.mapM projectTestCase
  let startAtv ← pyGet data "startAt"
  let maxResultsv ← pyGet data "maxResults"
  let totalv ← pyGet data "total"
  let isLastv ← pyGet data "isLast"
  return jsonDumps 0 (.obj [("testCases", .arr result),
    ("pagination", .obj [("startAt", startAtv), ("maxResults", maxResultsv),
                         ("total", totalv), ("isLast", isLastv)])])

/-- `get_test_cases` (lines 89-148). -/
def get_test_cases (cfg : Config) (transport : Request → TransportResult)
    (project_key : String) (folder_id : Option Int) (max_results start_at : Int) :
    Except PyErr String × List Request :=
  let res := make_zephyr_request cfg.token transport "GET" (cfg.api_base ++ "/testcases")
    none (some (get_test_cases_params project_key folder_id max_results start_at))
  (get_test_cases_shape res.1, res.2)

/-- The shared success/error tail `if "error" in data: return f"Error: ..."`
followed by a success result (lines 160-163 and analogues in every tool). -/
def errorCheckThen (data : JsonVal) (success : Except PyErr String) :
    Except PyErr String := do
  if (← pyContains data "error") then
    let ev ← pySubscript data "error"
    return "Error: " ++ pyStr ev
  success

/-- `get_test_case` (lines 150-163). -/
def get_test_case (cfg : Config) (transport : Request → TransportResult)
    (test_case_key : String) : Except PyErr String × List Request :=
  let res := make_zephyr_request cfg.token transport "GET"
    (cfg.api_base ++ "/testcases/" ++ test_case_key) none none
  (errorCheckThen res.1 (pure (jsonDumps 0 res.1)), res.2)

/-- The body dict of `create_test_case` (lines 194-216): two required fields
followed by nine truthiness-guarded optional fields, in source order. -/
def create_test_case_payload (project_key name : String)
    (objective precondition priority_name status_name : Option String)
    (folder_id : Option Int) (owner_id : Option String)
    (estimated_time component_id : Option Int)
    (labels : Option (List String)) : List (String × JsonVal) :=
  let p0 := [("projectKey", JsonVal.str project_key), ("name", JsonVal.str name)]
  let p1 := appendIf p0 (truthyOptStr objective) "objective" (.str (objective.getD ""))
  let p2 := appendIf p1 (truthyOptStr precondition) "precondition" (.str (precondition.getD ""))
  let p3 := appendIf p2 (truthyOptStr priority_name) "priorityName" (.str (priority_name.getD ""))
  let p4 := appendIf p3 (truthyOptStr status_name) "statusName" (.str (status_name.getD ""))
  let p5 := appendIf p4 (truthyOptInt folder_id) "folderId" (.num (folder_id.getD 0))
  let p6 := appendIf p5 (truthyOptStr owner_id) "ownerId" (.str (owner_id.getD ""))
  let p7 := appendIf p6 (truthyOptInt estimated_time) "estimatedTime" (.num (estimated_time.getD 0))
  let p8 := appendIf p7 (truthyOptInt component_id) "componentId" (.num (component_id.getD 0))
  appendIf p8 (truthyOptStrList labels) "labels" (.arr ((labels.getD []).map JsonVal.str))

/-- `create_test_case` (lines 165-224). -/
def create_test_case (cfg : Config) (transport : Request → TransportResult)
    (project_key name : String)
    (objective precondition priority_name status_name : Option String)
    (folder_id : Option Int) (owner_id : Option String)
    (estimated_time component_id : Option Int)
    (labels : Option (List String)) : Except PyErr String × List Request :=
  let payload := create_test_case_payload project_key name objective precondition
    priority_name status_name folder_id owner_id estimated_time component_id labels
  let res := make_zephyr_request cfg.token transport "POST" (cfg.api_base ++ "/testcases")
    (some (.obj payload)) none
  (errorCheckThen res.1 (pure (jsonDumps 0 res.1)), res.2)

/-- `update_test_case` (lines 226-245). The `test_case_data` string argument
is represented by the outcome of `json.loads` on it: `none` models a
`json.JSONDecodeError`, `some payload` the parsed value. -/
def update_test_case (cfg : Config) (transport : Request → TransportResult)
    (test_case_key : String) (parsed_test_case_data : Option JsonVal) :
    Except PyErr String × List Request :=
  match parsed_test_case_data with
  | none => (.ok "Error: Invalid JSON format for test_case_data", [])
  | some payload =>
    let res := make_zephyr_request cfg.token transport "PUT"
      (cfg.api_base ++ "/testcases/" ++ test_case_key) (some payload) none
    (errorCheckThen res.1 (pure "Test case updated successfully"), res.2)

/-- Query params of `get_test_case_versions` (lines 309-312): `max_results`
is passed through with no clamping. -/
def get_test_case_versions_params (max_results start_at : Int) :
    List (String × JsonVal) :=
  [("maxResults", .num max_results), ("startAt", .num start_at)]

/-- `get_test_case_versions` (lines 300-320). -/
def get_test_case_versions (cfg : Config) (transport : Request → TransportResult)
    (test_case_key : String) (max_results start_at : Int) :
    Except PyErr String × List Request :=
  let res := make_zephyr_request cfg.token transport "GET"
    (cfg.api_base ++ "/testcases/" ++ test_case_key ++ "/versions") none
    (some (get_test_case_versions_params max_results start_at))
  (errorCheckThen res.1 (pure (jsonDumps 0 res.1)), res.2)

/-- Query params of `get_test_case_steps` (lines 384-387): no clamping. -/
def get_test_case_steps_params (max_results start_at : Int) :
    List (String × JsonVal) :=
  [("maxResults", .num max_results), ("startAt", .num start_at)]

/-- `create_test_case_steps` (lines 397-416); `steps_data` is represented by
the outcome of `json.loads` on it. -/
def create_test_case_steps (cfg : Config) (transport : Request → TransportResult)
    (test_case_key : String) (parsed_steps_data : Option JsonVal) :
    Except PyErr String × List Request :=
  match parsed_steps_data with
  | none => (.ok "Error: Invalid JSON format for steps_data", [])
  | some payload =>
    let res := make_zephyr_request cfg.token transport "POST"
      (cfg.api_base ++ "/testcases/" ++ test_case_key ++ "/teststeps") (some payload) none
    (errorCheckThen res.1 (pure (jsonDumps 0 res.1)), res.2)

/-- Query params of `get_folders` (lines 437-445). -/
def get_folders_params (project_key folder_type : Option String)
    (max_results start_at : Int) : List (String × JsonVal) :=
  let p0 := [("maxResults", JsonVal.num (min max_results 1000)), ("startAt", JsonVal.num start_at)]
  let p1 := appendIf p0 (truthyOptStr project_key) "projectKey" (.str (project_key.getD ""))
  appendIf p1 (truthyOptStr folder_type) "folderType" (.str (folder_type.getD ""))

/-- Query params of `get_test_cycles` (lines 523-533). -/
def get_test_cycles_params (project_key : Option String) (folder_id : Option Int)
    (jira_project_version_id : Option Int) (max_results start_at : Int) :
    List (String × JsonVal) :=
  let p0 := [("maxResults", JsonVal.num (min max_results 1000)), ("startAt", JsonVal.num start_at)]
  let p1 := appendIf p0 (truthyOptStr project_key) "projectKey" (.str (project_key.getD ""))
  let p2 := appendIf p1 (truthyOptInt folder_id) "folderId" (.num (folder_id.getD 0))
  appendIf p2 (truthyOptInt jira_project_version_id) "jiraProjectVersionId"
    (.num (jira_project_version_id.getD 0))

/-- `update_test_cycle` (lines 611-630). -/
def update_test_cycle (cfg : Config) (transport : Request → TransportResult)
    (test_cycle_id_or_key : String) (parsed_test_cycle_data : Option JsonVal) :
    Except PyErr String × List Request :=
  match parsed_test_cycle_data with
  | none => (.ok "Error: Invalid JSON format for test_cycle_data", [])
  | some payload =>
    let res := make_zephyr_request cfg.token transport "PUT"
      (cfg.api_base ++ "/testcycles/" ++ test_cycle_id_or_key) (some payload) none
    (errorCheckThen res.1 (pure "Test cycle updated successfully"), res.2)

/-- Query params of `get_test_executions` (lines 663-681). The two boolean
flags and the pagination fields are always included, even when falsy; only
the six remaining optionals are truthiness-guarded. -/
def get_test_executions_params (project_key test_cycle test_case : Option String)
    (actual_end_date_after actual_end_date_before : Option String)
    (jira_project_version_id : Option Int)
    (only_last_executions include_step_links : Bool)
    (max_results start_at : Int) : List (String × JsonVal) :=
  let p0 := [("maxResults", JsonVal.num (min max_results 1000)),
             ("startAt", JsonVal.num start_at),
             ("onlyLastExecutions", JsonVal.bool only_last_executions),
             ("includeStepLinks", JsonVal.bool include_step_links)]
  let p1 := appendIf p0 (truthyOptStr project_key) "projectKey" (.str (project_key.getD ""))
  let p2 := appendIf p1 (truthyOptStr test_cycle) "testCycle" (.str (test_cycle.getD ""))
  let p3 := appendIf p2 (truthyOptStr test_case) "testCase" (.str (test_case.getD ""))
  let p4 := appendIf p3 (truthyOptStr actual_end_date_after) "actualEndDateAfter"
    (.str (actual_end_date_after.getD ""))
  let p5 := appendIf p4 (truthyOptStr actual_end_date_before) "actualEndDateBefore"
    (.str (actual_end_date_before.getD ""))
  appendIf p5 (truthyOptInt jira_project_version_id) "jiraProjectVersionId"
    (.num (jira_project_version_id.getD 0))

/-- `get_test_executions` (lines 636-689). -/
def get_test_executions (cfg : Config) (transport : Request → TransportResult)
    (project_key test_cycle test_case : Option String)
    (actual_end_date_after actual_end_date_before : Option String)
    (jira_project_version_id : Option Int)
    (only_last_executions include_step_links : Bool)
    (max_results start_at : Int) : Except PyErr String × List Request :=
  let res := make_zephyr_request cfg.token transport "GET"
    (cfg.api_base ++ "/testexecutions") none
    (some (get_test_executions_params project_key test_cycle test_case
      actual_end_date_after actual_end_date_before jira_project_version_id
      only_last_executions include_step_links max_results start_at))
  (errorCheckThen res.1 (pure (jsonDumps 0 res.1)), res.2)

/-- `update_test_execution` (lines 764-783). -/
def update_test_execution (cfg : Config) (transport : Request → TransportResult)
    (test_execution_id_or_key : String) (parsed_execution_data : Option JsonVal) :
    Except PyErr String × List Request :=
  match parsed_execution_data with
  | none => (.ok "Error: Invalid JSON format for execution_data", [])
  | some payload =>
    let res := make_zephyr_request cfg.token transport "PUT"
      (cfg.api_base ++ "/testexecutions/" ++ test_execution_id_or_key) (some payload) none
    (errorCheckThen res.1 (pure "Test execution updated successfully"), res.2)

/-- Query params of `get_projects` (lines 797-800). -/
def get_projects_params (max_results start_at : Int) : List (String × JsonVal) :=
  [("maxResults", .num (min max_results 1000)), ("startAt", .num start_at)]

/-- Query params of `get_priorities` (lines 842-848). -/
def get_priorities_params (project_key : Option String) (max_results start_at : Int) :
    List (String × JsonVal) :=
  appendIf [("maxResults", JsonVal.num (min max_results 1000)), ("startAt", JsonVal.num start_at)]
    (truthyOptStr project_key) "projectKey" (.str (project_key.getD ""))

/-- `update_priority` (lines 906-925). -/
def update_priority (cfg : Config) (transport : Request → TransportResult)
    (priority_id : Int) (parsed_priority_data : Option JsonVal) :
    Except PyErr String × List Request :=
  match parsed_priority_data with
  | none => (.ok "Error: Invalid JSON format for priority_data", [])
  | some payload =>
    let res := make_zephyr_request cfg.token transport "PUT"
      (cfg.api_base ++ "/priorities/" ++ toString priority_id) (some payload) none
    (errorCheckThen res.1 (pure "Priority updated successfully"), res.2)

/-- Query params of `get_statuses` (lines 946-954). -/
def get_statuses_params (project_key status_type : Option String)
    (max_results start_at : Int) : List (String × JsonVal) :=
  let p0 := [("maxResults", JsonVal.num (min max_results 1000)), ("startAt", JsonVal.num start_at)]
  let p1 := appendIf p0 (truthyOptStr project_key) "projectKey" (.str (project_key.getD ""))
  appendIf p1 (truthyOptStr status_type) "statusType" (.str (status_type.getD ""))

/-- `update_status` (lines 1015-1034). -/
def update_status (cfg : Config) (transport : Request → TransportResult)
    (status_id : Int) (parsed_status_data : Option JsonVal) :
    Except PyErr String × List Request :=
  match parsed_status_data with
  | none => (.ok "Error: Invalid JSON format for status_data", [])
  | some payload =>
    let res := make_zephyr_request cfg.token transport "PUT"
      (cfg.api_base ++ "/statuses/" ++ toString status_id) (some payload) none
    (errorCheckThen res.1 (pure "Status updated successfully"), res.2)

/-- Query params of `get_environments` (lines 1053-1059). -/
def get_environments_params (project_key : Option String) (max_results start_at : Int) :
    List (String × JsonVal) :=
  appendIf [("maxResults", JsonVal.num (min max_results 1000)), ("startAt", JsonVal.num start_at)]
    (truthyOptStr project_key) "projectKey" (.str (project_key.getD ""))

/-- `update_environment` (lines 1113-1132). -/
def update_environment (cfg : Config) (transport : Request → TransportResult)
    (environment_id : Int) (parsed_environment_data : Option JsonVal) :
    Except PyErr String × List Request :=
  match parsed_environment_data with
  | none => (.ok "Error: Invalid JSON format for environment_data", [])
  | some payload =>
    let res := make_zephyr_request cfg.token transport "PUT"
      (cfg.api_base ++ "/environments/" ++ toString environment_id) (some payload) none
    (errorCheckThen res.1 (pure "Environment updated successfully"), res.2)

/-! ## Lookup lemmas -/

/-- Does a JSON object have key `k`? (discriminator used to tell concrete
outcomes apart). -/
def hasKeyB (v : JsonVal) (k : String) : Bool :=
  match v with
  | .obj fs => (dictLookup fs k).isSome
  | _ => false

theorem dictLookup_append (p q : List (String × JsonVal)) (k : String) :
    dictLookup (p ++ q) k =
      match dictLookup p k with
      | some w => some w
      | none => dictLookup q k := by
  induction p with
  | nil => rfl
  | cons kv rest ih =>
      obtain ⟨a, b⟩ := kv
      by_cases hak : a = k
      · simp [dictLookup, hak]
      · simp [dictLookup, hak, ih]

theorem dictLookup_appendIf_ne (p : List (String × JsonVal)) (c : Bool)
    (k : String) (v : JsonVal) (k2 : String) (h : k ≠ k2) :
    dictLookup (appendIf p c k v) k2 = dictLookup p k2 := by
  unfold appendIf
  cases c
  · rfl
  · simp only [if_true]
    rw [dictLookup_append]
    cases hview : dictLookup p k2
    · simp [dictLookup, h]
    · simp

theorem dictLookup_appendIf_self (p : List (String × JsonVal)) (c : Bool)
    (k : String) (v : JsonVal) (h : dictLookup p k = none) :
    dictLookup (appendIf p c k v) k = if c then some v else none := by
  unfold appendIf
  cases c
  · simpa using h
  · simp only [if_true]
    rw [dictLookup_append, h]
    simp [dictLookup]

theorem dictLookup_appendIf_found (p : List (String × JsonVal)) (c : Bool)
    (k : String) (v : JsonVal) (k2 : String) (w : JsonVal)
    (h : dictLookup p k2 = some w) :
    dictLookup (appendIf p c k v) k2 = some w := by
  unfold appendIf
  cases c
  · simpa using h
  · simp only [if_true]
    rw [dictLookup_append, h]

/-! ## Executor lemmas -/

theorem make_zephyr_request_resp (token method url : String) (data : Option JsonVal)
    (params : Option (List (String × JsonVal))) (r : HttpResponse)
    (hm : supportedMethod method = true) :
    make_zephyr_request token (constTransport r) method url data params =
      (handleResponse r, [execRequest token method url data params]) := by
  unfold make_zephyr_request constTransport
  simp [hm]

theorem handleResponse_json (r : HttpResponse) (v : JsonVal)
    (hs : is2xx r.status = true) (h204 : r.status ≠ 204) (hne : r.text ≠ "")
    (hj : r.jsonVal = .ok v) : handleResponse r = v := by
  unfold handleResponse
  simp [hs, h204, hne, hj]

/-! ## Claims -/

/-- C1: for every response with a non-2xx HTTP status (for which httpx's
`raise_for_status` raises `HTTPStatusError`), `make_zephyr_request` returns
an error record: a dict with key "error" whose message embeds the exact
numeric status and the raw response text, plus key "status_code" holding
that status. The embedding is a total function, so no exception escapes the
executor's boundary. -/
theorem claim_C1_http_error_record (token method url : String) (data : Option JsonVal)
    (params : Option (List (String × JsonVal))) (r : HttpResponse)
    (hm : supportedMethod method = true) (hs : is2xx r.status = false) :
    (make_zephyr_request token (constTransport r) method url data params).1 =
      .obj [("error", .str ("HTTP " ++ toString r.status ++ ": " ++ r.text)),
            ("status_code", .num (Int.ofNat r.status))] := by
  rw [make_zephyr_request_resp token method url data params r hm]
  unfold handleResponse
  simp [hs]

def c1resp404 : HttpResponse :=
  { status := 404, text := "not found", jsonVal := .error "Expecting value" }

/-- Witness for C1 at a concrete 404 response. -/
theorem claim_C1_witness :
    (make_zephyr_request "tok" (constTransport c1resp404) "GET" "https://u" none none).1 =
      .obj [("error", .str ("HTTP " ++ toString c1resp404.status ++ ": " ++ c1resp404.text)),
            ("status_code", .num (Int.ofNat c1resp404.status))] :=
  claim_C1_http_error_record "tok" "GET" "https://u" none none c1resp404 rfl rfl

def c2resp404empty : HttpResponse :=
  { status := 404, text := "", jsonVal := .error "Expecting value" }

/-- C2 counterexample: the claim quantifies over every response "with HTTP
status 204 or with a zero-length body", but `raise_for_status` runs before
the empty-body check, so a 404 response with a zero-length body yields the
error record, not the synthetic success marker. -/
theorem claim_C2_counterexample :
    (make_zephyr_request "tok" (constTransport c2resp404empty) "GET" "https://u" none none).1 =
      .obj [("error", .str "HTTP 404: "), ("status_code", .num 404)] ∧
    (make_zephyr_request "tok" (constTransport c2resp404empty) "GET" "https://u" none none).1 ≠
      .obj [("success", .bool true)] := by
  refine ⟨rfl, fun hcontra => ?_⟩
  exact Bool.noConfusion (congrArg (fun v => hasKeyB v "success") hcontra)

/-- C2 amended: for every response with a 2xx status that has status 204 or
a zero-length body, `make_zephyr_request` returns the synthetic success
marker (regardless of the HTTP method used); JSON decoding is not attempted
(the `jsonVal` field of the response is never consulted on this path). -/
theorem claim_C2_amended (token method url : String) (data : Option JsonVal)
    (params : Option (List (String × JsonVal))) (r : HttpResponse)
    (hm : supportedMethod method = true) (hs : is2xx r.status = true)
    (hb : r.status = 204 ∨ r.text = "") :
    (make_zephyr_request token (constTransport r) method url data params).1 =
      .obj [("success", .bool true)] := by
  rw [make_zephyr_request_resp token method url data params r hm]
  unfold handleResponse
  rcases hb with hb | hb
  · simp [hb, is2xx]
  · simp [hs, hb]

def c2resp204 : HttpResponse :=
  { status := 204, text := "", jsonVal := .error "Expecting value" }

/-- Witness for the amended C2 at a concrete 204 response to a DELETE. -/
theorem claim_C2_witness :
    (make_zephyr_request "tok" (constTransport c2resp204) "DELETE" "https://u" none none).1 =
      .obj [("success", .bool true)] :=
  claim_C2_amended "tok" "DELETE" "https://u" none none c2resp204 rfl rfl (Or.inl rfl)

/-- C5: every raw-JSON-payload tool (update_test_case, update_test_cycle,
update_test_execution, update_priority, update_status, update_environment,
create_test_case_steps), given a malformed JSON string (a `json.loads`
outcome of `none`), returns its fixed invalid-JSON error message and hands
no request to the transport. -/
theorem claim_C5_invalid_json_no_network (cfg : Config)
    (transport : Request → TransportResult) (tck tcyk texk : String)
    (pid sid eid : Int) :
    update_test_case cfg transport tck none =
      (.ok "Error: Invalid JSON format for test_case_data", []) ∧
    update_test_cycle cfg transport tcyk none =
      (.ok "Error: Invalid JSON format for test_cycle_data", []) ∧
    update_test_execution cfg transport texk none =
      (.ok "Error: Invalid JSON format for execution_data", []) ∧
    update_priority cfg transport pid none =
      (.ok "Error: Invalid JSON format for priority_data", []) ∧
    update_status cfg transport sid none =
      (.ok "Error: Invalid JSON format for status_data", []) ∧
    update_environment cfg transport eid none =
      (.ok "Error: Invalid JSON format for environment_data", []) ∧
    create_test_case_steps cfg transport tck none =
      (.ok "Error: Invalid JSON format for steps_data", []) :=
  ⟨rfl, rfl, rfl, rfl, rfl, rfl, rfl⟩

/-- C6: for every method string that is not GET/POST/PUT/DELETE
(case-insensitive), `make_zephyr_request` returns the uniform error record
(the raised `ValueError` is caught by the generic handler) and hands no
request to the transport. -/
theorem claim_C6_unsupported_method (token : String)
    (transport : Request → TransportResult) (method url : String)
    (data : Option JsonVal) (params : Option (List (String × JsonVal)))
    (h : supportedMethod method = false) :
    make_zephyr_request token transport method url data params =
      (.obj [("error", .str ("Request failed: Unsupported HTTP method: " ++ method))], []) := by
  unfold make_zephyr_request
  simp [h]

def c6resp : HttpResponse := { status := 200, text := "x", jsonVal := .ok (.obj []) }

/-- Witness for C6 at the concrete unsupported method "PATCH". -/
theorem claim_C6_witness :
    make_zephyr_request "tok" (constTransport c6resp) "PATCH" "https://u" none none =
      (.obj [("error", .str ("Request failed: Unsupported HTTP method: " ++ "PATCH"))], []) :=
  claim_C6_unsupported_method "tok" (constTransport c6resp) "PATCH" "https://u" none none rfl

/-- C7: for every call with a supported method (GET/POST/PUT/DELETE,
case-insensitive), `make_zephyr_request` hands exactly one request to the
transport (no retry, whatever the transport's outcome), with the bearer-token
Authorization header, the JSON Content-Type header, and timeout 30. -/
theorem claim_C7_fixed_headers_single_call (token : String)
    (transport : Request → TransportResult) (method url : String)
    (data : Option JsonVal) (params : Option (List (String × JsonVal)))
    (h : supportedMethod method = true) :
    (make_zephyr_request token transport method url data params).2 =
      [execRequest token method url data params] ∧
    (execRequest token method url data params).headers =
      [("Authorization", "Bearer " ++ token), ("Content-Type", "application/json")] ∧
    (execRequest token method url data params).timeout = 30 := by
  refine ⟨?_, rfl, rfl⟩
  unfold make_zephyr_request
  simp only [h, if_true]
  cases transport (execRequest token method url data params) <;> rfl

def c7resp : HttpResponse := { status := 200, text := "x", jsonVal := .ok (.obj []) }

/-- Witness for C7 at a concrete GET call. -/
theorem claim_C7_witness :
    (make_zephyr_request "tok" (constTransport c7resp) "GET" "https://u" none none).2 =
      [execRequest "tok" "GET" "https://u" none none] ∧
    (execRequest "tok" "GET" "https://u" none none).headers =
      [("Authorization", "Bearer " ++ "tok"), ("Content-Type", "application/json")] ∧
    (execRequest "tok" "GET" "https://u" none none).timeout = 30 :=
  claim_C7_fixed_headers_single_call "tok" (constTransport c7resp) "GET" "https://u" none none rfl

/-- The integer stored at a lookup result (0 otherwise); a discriminator
used to tell concrete outcomes apart. -/
def numOf : Option JsonVal → Int
  | some (.num n) => n
  | _ => 0

/-- C3 counterexample: calling get_test_executions with every argument at
its default puts the falsy optional boolean only_last_executions into the
outgoing query parameters as an explicit false instead of excluding it
(likewise include_step_links; the claim requires every falsy optional to be
excluded). -/
theorem claim_C3_counterexample :
    dictLookup (get_test_executions_params none none none none none none false false 25 0)
        "onlyLastExecutions" = some (.bool false) ∧
    dictLookup (get_test_executions_params none none none none none none false false 25 0)
        "onlyLastExecutions" ≠ none := by
  refine ⟨rfl, fun hcontra => ?_⟩
  exact Option.noConfusion hcontra

/-- C3 amended: for every truthiness-guarded optional argument (all nine
optionals of create_test_case and the six guarded optionals of
get_test_executions), a falsy value (None, empty string, 0, empty list) is
excluded from the outgoing payload and a truthy value appears under its
exact upstream field name; however the boolean-typed optional arguments
only_last_executions and include_step_links of get_test_executions are
always included — even when false. -/
theorem claim_C3_amended (project_key name : String)
    (objective precondition priority_name status_name : Option String)
    (folder_id : Option Int) (owner_id : Option String)
    (estimated_time component_id : Option Int) (labels : Option (List String))
    (pk tcy tca aa ab : Option String) (jv : Option Int) (ole isl : Bool)
    (mr sa : Int) :
    (dictLookup (create_test_case_payload project_key name objective precondition
        priority_name status_name folder_id owner_id estimated_time component_id labels)
        "objective" = if truthyOptStr objective then some (.str (objective.getD "")) else none) ∧
    (dictLookup (create_test_case_payload project_key name objective precondition
        priority_name status_name folder_id owner_id estimated_time component_id labels)
        "precondition" = if truthyOptStr precondition then some (.str (precondition.getD "")) else none) ∧
    (dictLookup (create_test_case_payload project_key name objective precondition
        priority_name status_name folder_id owner_id estimated_time component_id labels)
        "priorityName" = if truthyOptStr priority_name then some (.str (priority_name.getD "")) else none) ∧
    (dictLookup (create_test_case_payload project_key name objective precondition
        priority_name status_name folder_id owner_id estimated_time component_id labels)
        "statusName" = if truthyOptStr status_name then some (.str (status_name.getD "")) else none) ∧
    (dictLookup (create_test_case_payload project_key name objective precondition
        priority_name status_name folder_id owner_id estimated_time component_id labels)
        "folderId" = if truthyOptInt folder_id then some (.num (folder_id.getD 0)) else none) ∧
    (dictLookup (create_test_case_payload project_key name objective precondition
        priority_name status_name folder_id owner_id estimated_time component_id labels)
        "ownerId" = if truthyOptStr owner_id then some (.str (owner_id.getD "")) else none) ∧
    (dictLookup (create_test_case_payload project_key name objective precondition
        priority_name status_name folder_id owner_id estimated_time component_id labels)
        "estimatedTime" = if truthyOptInt estimated_time then some (.num (estimated_time.getD 0)) else none) ∧
    (dictLookup (create_test_case_payload project_key name objective precondition
        priority_name status_name folder_id owner_id estimated_time component_id labels)
        "componentId" = if truthyOptInt component_id then some (.num (component_id.getD 0)) else none) ∧
    (dictLookup (create_test_case_payload project_key name objective precondition
        priority_name status_name folder_id owner_id estimated_time component_id labels)
        "labels" = if truthyOptStrList labels then some (.arr ((labels.getD []).map JsonVal.str)) else none) ∧
    (dictLookup (get_test_executions_params pk tcy tca aa ab jv ole isl mr sa)
        "projectKey" = if truthyOptStr pk then some (.str (pk.getD "")) else none) ∧
    (dictLookup (get_test_executions_params pk tcy tca aa ab jv ole isl mr sa)
        "testCycle" = if truthyOptStr tcy then some (.str (tcy.getD "")) else none) ∧
    (dictLookup (get_test_executions_params pk tcy tca aa ab jv ole isl mr sa)
        "testCase" = if truthyOptStr tca then some (.str (tca.getD "")) else none) ∧
    (dictLookup (get_test_executions_params pk tcy tca aa ab jv ole isl mr sa)
        "actualEndDateAfter" = if truthyOptStr aa then some (.str (aa.getD "")) else none) ∧
    (dictLookup (get_test_executions_params pk tcy tca aa ab jv ole isl mr sa)
        "actualEndDateBefore" = if truthyOptStr ab then some (.str (ab.getD "")) else none) ∧
    (dictLookup (get_test_executions_params pk tcy tca aa ab jv ole isl mr sa)
        "jiraProjectVersionId" = if truthyOptInt jv then some (.num (jv.getD 0)) else none) ∧
    (dictLookup (get_test_executions_params pk tcy tca aa ab jv ole isl mr sa)
        "onlyLastExecutions" = some (.bool ole)) ∧
    (dictLookup (get_test_executions_params pk tcy tca aa ab jv ole isl mr sa)
        "includeStepLinks" = some (.bool isl)) := by
  refine ⟨?_, ?_, ?_, ?_, ?_, ?_, ?_, ?_, ?_, ?_, ?_, ?_, ?_, ?_, ?_, ?_, ?_⟩ <;>
    simp [create_test_case_payload, get_test_executions_params,
      dictLookup_appendIf_ne, dictLookup_appendIf_self, dictLookup_appendIf_found,
      dictLookup]

/-- C4 counterexample: get_test_case_versions is a list-returning tool with a
max_results argument, yet a value of 5000 is sent upstream unclamped. -/
theorem claim_C4_counterexample :
    dictLookup (get_test_case_versions_params 5000 0) "maxResults" = some (.num 5000) ∧
    dictLookup (get_test_case_versions_params 5000 0) "maxResults" ≠ some (.num 1000) := by
  refine ⟨rfl, fun hcontra => ?_⟩
  exact absurd (congrArg numOf hcontra) (by decide)

/-- C4 amended: the listing tools get_test_cases, get_folders,
get_test_cycles, get_test_executions, get_projects, get_priorities,
get_statuses and get_environments clamp max_results values above 1000 to
1000 in the outgoing maxResults query parameter, but get_test_case_versions
and get_test_case_steps pass max_results through unclamped. -/
theorem claim_C4_amended (mr sa : Int) (hmr : 1000 < mr) (pk : String)
    (fid jv : Option Int) (opk oft ost tcy : Option String) (ole isl : Bool) :
    (dictLookup (get_test_cases_params pk fid mr sa) "maxResults" = some (.num 1000)) ∧
    (dictLookup (get_folders_params opk oft mr sa) "maxResults" = some (.num 1000)) ∧
    (dictLookup (get_test_cycles_params opk fid jv mr sa) "maxResults" = some (.num 1000)) ∧
    (dictLookup (get_test_executions_params opk tcy tcy tcy tcy jv ole isl mr sa)
        "maxResults" = some (.num 1000)) ∧
    (dictLookup (get_projects_params mr sa) "maxResults" = some (.num 1000)) ∧
    (dictLookup (get_priorities_params opk mr sa) "maxResults" = some (.num 1000)) ∧
    (dictLookup (get_statuses_params opk ost mr sa) "maxResults" = some (.num 1000)) ∧
    (dictLookup (get_environments_params opk mr sa) "maxResults" = some (.num 1000)) ∧
    (dictLookup (get_test_case_versions_params mr sa) "maxResults" = some (.num mr)) ∧
    (dictLookup (get_test_case_steps_params mr sa) "maxResults" = some (.num mr)) := by
  have hmin : min mr 1000 = 1000 := min_eq_right (le_of_lt hmr)
  refine ⟨?_, ?_, ?_, ?_, ?_, ?_, ?_, ?_, ?_, ?_⟩ <;>
    simp [get_test_cases_params, get_folders_params, get_test_cycles_params,
      get_test_executions_params, get_projects_params, get_priorities_params,
      get_statuses_params, get_environments_params, get_test_case_versions_params,
      get_test_case_steps_params, hmin,
      dictLookup_appendIf_found, dictLookup_appendIf_ne, dictLookup]

/-- Witness for the amended C4 at max_results = 5000. -/
theorem claim_C4_witness :
    (dictLookup (get_test_cases_params "SM" none 5000 0) "maxResults" = some (.num 1000)) ∧
    (dictLookup (get_folders_params none none 5000 0) "maxResults" = some (.num 1000)) ∧
    (dictLookup (get_test_cycles_params none none none 5000 0) "maxResults" = some (.num 1000)) ∧
    (dictLookup (get_test_executions_params none none none none none none false false 5000 0)
        "maxResults" = some (.num 1000)) ∧
    (dictLookup (get_projects_params 5000 0) "maxResults" = some (.num 1000)) ∧
    (dictLookup (get_priorities_params none 5000 0) "maxResults" = some (.num 1000)) ∧
    (dictLookup (get_statuses_params none none 5000 0) "maxResults" = some (.num 1000)) ∧
    (dictLookup (get_environments_params none 5000 0) "maxResults" = some (.num 1000)) ∧
    (dictLookup (get_test_case_versions_params 5000 0) "maxResults" = some (.num 5000)) ∧
    (dictLookup (get_test_case_steps_params 5000 0) "maxResults" = some (.num 5000)) :=
  claim_C4_amended 5000 0 (by decide) "SM" none none none none none none false false

/-- Reduction of `Except` bind on a success value (do-notation unfolding). -/
theorem except_bind_ok {α β ε : Type} (a : α) (f : α → Except ε β) :
    Bind.bind (Except.ok a) f = f a := rfl

theorem errorCheckThen_some (d : List (String × JsonVal)) (m : String)
    (s : Except PyErr String) (h : dictLookup d "error" = some (.str m)) :
    errorCheckThen (.obj d) s = .ok ("Error: " ++ m) := by
  simp [errorCheckThen, pyContains, pySubscript, pyStr, h, except_bind_ok]

theorem errorCheckThen_none (d : List (String × JsonVal))
    (s : Except PyErr String) (h : dictLookup d "error" = none) :
    errorCheckThen (.obj d) s = s := by
  simp [errorCheckThen, pyContains, pySubscript, pyStr, h, except_bind_ok]

/-- C9: each tool decides success vs. failure solely by testing whether the
returned dict has the top-level key "error"; so a 2xx response whose JSON
body legitimately carries a top-level "error" field makes get_test_case
return the same "Error: "-prefixed shape as a genuine HTTP failure does —
the two are indistinguishable in the tool's output. -/
theorem claim_C9_error_key_ambiguity (cfg : Config) (k : String)
    (r rBad : HttpResponse) (d : List (String × JsonVal)) (m : String)
    (hs : r.status = 200) (hne : r.text ≠ "") (hj : r.jsonVal = .ok (.obj d))
    (herr : dictLookup d "error" = some (.str m))
    (hbad : is2xx rBad.status = false) :
    (get_test_case cfg (constTransport r) k).1 = .ok ("Error: " ++ m) ∧
    (get_test_case cfg (constTransport rBad) k).1 =
      .ok ("Error: " ++ ("HTTP " ++ toString rBad.status ++ ": " ++ rBad.text)) := by
  have hs2 : is2xx r.status = true := by rw [hs]; rfl
  have h204 : r.status ≠ 204 := by rw [hs]; decide
  constructor
  · unfold get_test_case
    rw [make_zephyr_request_resp cfg.token "GET" (cfg.api_base ++ "/testcases/" ++ k)
      none none r rfl]
    rw [handleResponse_json r (.obj d) hs2 h204 hne hj]
    exact errorCheckThen_some d m _ herr
  · unfold get_test_case
    rw [make_zephyr_request_resp cfg.token "GET" (cfg.api_base ++ "/testcases/" ++ k)
      none none rBad rfl]
    have hh : handleResponse rBad =
        .obj [("error", .str ("HTTP " ++ toString rBad.status ++ ": " ++ rBad.text)),
              ("status_code", .num (Int.ofNat rBad.status))] := by
      unfold handleResponse
      simp [hbad]
    rw [hh]
    exact errorCheckThen_some _ _ _ (by simp [dictLookup])

def c9resp : HttpResponse :=
  { status := 200, text := "nonempty", jsonVal := .ok (.obj [("error", .str "quota exceeded")]) }

def c9respBad : HttpResponse :=
  { status := 404, text := "gone", jsonVal := .error "Expecting value" }

def c9cfg : Config := { token := "tok", api_base := "https://api.zephyrscale.smartbear.com/v2" }

/-- Witness for C9: a 200 response whose body is a JSON object with a
top-level "error" field, next to a genuine 404. -/
theorem claim_C9_witness :
    (get_test_case c9cfg (constTransport c9resp) "SM-T1").1 =
      .ok ("Error: " ++ "quota exceeded") ∧
    (get_test_case c9cfg (constTransport c9respBad) "SM-T1").1 =
      .ok ("Error: " ++ ("HTTP " ++ toString c9respBad.status ++ ": " ++ c9respBad.text)) :=
  claim_C9_error_key_ambiguity c9cfg "SM-T1" c9resp c9respBad
    [("error", .str "quota exceeded")] "quota exceeded"
    rfl (by decide) rfl rfl rfl

def c10tc : JsonVal :=
  .obj [("id", .num 1), ("key", .str "SM-T1"), ("name", .str "login"), ("priority", .null)]

def c10resp : HttpResponse :=
  { status := 200, text := "body", jsonVal := .ok (.obj [("values", .arr [c10tc])]) }

def c10cfg : Config := { token := "tok", api_base := "https://api.zephyrscale.smartbear.com/v2" }

/-- C10: the projection in get_test_cases guards `folder` and `owner`
against null but not `priority`/`status`: a successful upstream response
containing a test case with "priority": null makes the tool raise an
unhandled AttributeError (first conjunct), while explicit null folder and
owner are projected safely (second conjunct). -/
theorem claim_C10_null_priority_raises :
    (get_test_cases c10cfg (constTransport c10resp) "SM" none 25 0).1 =
      .error .attributeError ∧
    projectTestCase (.obj [("folder", .null), ("owner", .null)]) =
      .ok (.obj [("id", .null), ("key", .null), ("name", .null), ("priority", .null),
        ("status", .null), ("objective", .null), ("precondition", .null),
        ("estimatedTime", .null), ("createdOn", .null), ("folder", .null),
        ("owner", .null)]) :=
  ⟨rfl, rfl⟩

theorem get_test_cases_fst (cfg : Config) (transport : Request → TransportResult)
    (pk : String) (fid : Option Int) (mr sa : Int) :
    (get_test_cases cfg transport pk fid mr sa).1 =
      get_test_cases_shape (make_zephyr_request cfg.token transport "GET"
        (cfg.api_base ++ "/testcases") none
        (some (get_test_cases_params pk fid mr sa))).1 := rfl

/-- C8: on a successful upstream response whose "values" list is empty or
absent, get_test_cases returns the literal text "No test cases found.";
on a successful response with a non-empty "values" list whose projection
raises no exception, it returns the 2-space-indented JSON dump of the
projected test cases with the pagination block passing through startAt,
maxResults, total and isLast verbatim from the upstream body. -/
theorem claim_C8_empty_and_projection (cfg : Config) (pk : String)
    (fid : Option Int) (mr sa : Int) (r : HttpResponse) (d : List (String × JsonVal))
    (hs : is2xx r.status = true) (h204 : r.status ≠ 204) (hne : r.text ≠ "")
    (hj : r.jsonVal = .ok (.obj d)) (herr : dictLookup d "error" = none) :
    ((dictLookup d "values" = none ∨ dictLookup d "values" = some (.arr [])) →
      (get_test_cases cfg (constTransport r) pk fid mr sa).1 =
        .ok "No test cases found.") ∧
    (∀ ts ps, dictLookup d "values" = some (.arr ts) → ts ≠ [] →
      List.mapM projectTestCase ts = .ok ps →
      (get_test_cases cfg (constTransport r) pk fid mr sa).1 =
        .ok (jsonDumps 0 (.obj [("testCases", .arr ps),
          ("pagination", .obj [("startAt", (dictLookup d "startAt").getD .null),
                               ("maxResults", (dictLookup d "maxResults").getD .null),
                               ("total", (dictLookup d "total").getD .null),
                               ("isLast", (dictLookup d "isLast").getD .null)])]))) := by
  have hdata : (make_zephyr_request cfg.token (constTransport r) "GET"
      (cfg.api_base ++ "/testcases") none
      (some (get_test_cases_params pk fid mr sa))).1 = .obj d := by
    rw [make_zephyr_request_resp cfg.token "GET" (cfg.api_base ++ "/testcases") none
      (some (get_test_cases_params pk fid mr sa)) r rfl]
    exact handleResponse_json r (.obj d) hs h204 hne hj
  constructor
  · intro hv
    rw [get_test_cases_fst, hdata]
    rcases hv with hv | hv <;>
      simp [get_test_cases_shape, pyContains, pySubscript, pyGetD, pyGet, herr, hv,
        pyTruthy, pyIter, except_bind_ok, pure, Except.pure]
  · intro ts ps hv hts hmap
    rw [get_test_cases_fst, hdata]
    have hts2 : ts.isEmpty = false := by
      cases ts
      · exact absurd rfl hts
      · rfl
    have hmap2 : List.mapM.loop projectTestCase ts [] = Except.ok ps := hmap
    simp [get_test_cases_shape, pyContains, pySubscript, pyGetD, pyGet, herr, hv,
      pyTruthy, hts2, pyIter, hmap, hmap2, except_bind_ok, pure, Except.pure]

def c8resp : HttpResponse :=
  { status := 200, text := "x",
    jsonVal := .ok (.obj [("values", .arr []), ("startAt", .num 0),
      ("maxResults", .num 25), ("total", .num 0), ("isLast", .bool true)]) }

def c8cfg : Config := { token := "tok", api_base := "https://api.zephyrscale.smartbear.com/v2" }

/-- Witness for C8: a successful response with `values: []` and
`max_results=25, start_at=0` yields the literal text. -/
theorem claim_C8_witness :
    (get_test_cases c8cfg (constTransport c8resp) "SM" none 25 0).1 =
      .ok "No test cases found." :=
  (claim_C8_empty_and_projection c8cfg "SM" none 25 0 c8resp
    [("values", .arr []), ("startAt", .num 0), ("maxResults", .num 25),
     ("total", .num 0), ("isLast", .bool true)]
    rfl (by decide) (by decide) rfl rfl).1 (Or.inr rfl)
